import Mathlib

/-!
Verification development for the statement-building and type-validation core of
a small SQL helper library (package `sql_query_tools`).

The embedding is shallow: Python values that flow through the statement
builders are modelled by the inductive type `PyValue` (booleans, arbitrary
precision integers, strings and the value None; the float case of the source
is noted where it matters but carries no modelled inhabitant), Python strings
are Lean `String`s, raised exceptions are the `Except.error` case, and log
output that the source emits through its logger is returned explicitly as a
list of (level, message) pairs.  Each definition mirrors one function of
`sql_query_tools/__init__.py` or `sql_query_tools/utils.py`.
-/

/-- The single-quote character, written via an escape so that every later use
is uniform. -/
def sqc : Char := '\x27'

/-- ASCII lower-casing of a string, matching Python lower() on the ASCII
inputs this development quantifies over. -/
def strLower (s : String) : String := String.mk (s.data.map Char.toLower)

/-- ASCII upper-casing of a string, matching Python upper() on ASCII input. -/
def strUpper (s : String) : String := String.mk (s.data.map Char.toUpper)

/-- Whitespace characters stripped by Python strip(). -/
def isPySpace (c : Char) : Bool :=
  c = ' ' || c = '\t' || c = '\n' || c = '\r' || c = '\x0b' || c = '\x0c'

/-- Python strip(): drop leading and trailing whitespace. -/
def pyStrip (s : String) : String :=
  String.mk (((s.data.dropWhile isPySpace).reverse.dropWhile isPySpace).reverse)

/-- Contiguous-sublist test on character lists, modelling the Python
`needle in haystack` substring operator. -/
def listInfix (needle : List Char) : List Char → Bool
  | [] => needle.isEmpty
  | c :: rest => needle.isPrefixOf (c :: rest) || listInfix needle rest

/-- Python substring containment `needle in haystack`. -/
def isSubstrOf (needle haystack : String) : Bool :=
  listInfix needle.data haystack.data

/-- Python str.startswith. -/
def pyStartsWith (s pre : String) : Bool :=
  pre.data.isPrefixOf s.data

/-- Python str.isdigit restricted to ASCII digits. -/
def pyIsdigit (s : String) : Bool :=
  !s.data.isEmpty && s.data.all Char.isDigit

/-- Numeric value of a list of ASCII digits. -/
def digitsToNat (cs : List Char) : Nat :=
  cs.foldl (fun acc c => acc * 10 + (c.toNat - 48)) 0

/-- Python int(str): optional surrounding whitespace, optional sign, then at
least one digit.  (Digit-group underscores are outside the modelled input
universe.) -/
def pyIntOfStr (s : String) : Option Int :=
  let cs := (pyStrip s).data
  match cs with
  | '+' :: rest =>
      if !rest.isEmpty && rest.all Char.isDigit then some (digitsToNat rest) else none
  | '-' :: rest =>
      if !rest.isEmpty && rest.all Char.isDigit then some (-(digitsToNat rest : Int)) else none
  | rest =>
      if !rest.isEmpty && rest.all Char.isDigit then some (digitsToNat rest) else none

/-- Exponent suffix of a Python float literal: empty, or e / E followed by an
optionally signed nonempty digit run. -/
def floatExpTail : List Char → Bool
  | [] => true
  | 'e' :: r =>
      (match r with
       | '+' :: d => !d.isEmpty && d.all Char.isDigit
       | '-' :: d => !d.isEmpty && d.all Char.isDigit
       | d => !d.isEmpty && d.all Char.isDigit)
  | 'E' :: r =>
      (match r with
       | '+' :: d => !d.isEmpty && d.all Char.isDigit
       | '-' :: d => !d.isEmpty && d.all Char.isDigit
       | d => !d.isEmpty && d.all Char.isDigit)
  | _ => false

/-- Mantissa (after an optional sign) of a Python float literal. -/
def floatMantissa (cs : List Char) : Bool :=
  let ip := cs.takeWhile Char.isDigit
  let rest := cs.dropWhile Char.isDigit
  match rest with
  | [] => !ip.isEmpty
  | '.' :: rest2 =>
      let fp := rest2.takeWhile Char.isDigit
      let rest3 := rest2.dropWhile Char.isDigit
      (!ip.isEmpty || !fp.isEmpty) && floatExpTail rest3
  | _ => !ip.isEmpty && floatExpTail rest

/-- Python float(str) success predicate: optional whitespace and sign, then
inf / infinity / nan (case-insensitive) or a decimal mantissa with optional
exponent. -/
def pyFloatStrOk (s : String) : Bool :=
  let cs := (pyStrip s).data
  let core := match cs with
    | '+' :: r => r
    | '-' :: r => r
    | r => r
  let lw := strLower (String.mk core)
  if lw = "inf" || lw = "infinity" || lw = "nan" then true
  else floatMantissa core

/-- Values of the dynamic Python universe that flows through the builders:
booleans, integers, strings and None.  Python floats are acknowledged where
the source tests for them but carry no modelled inhabitant. -/
inductive PyValue where
  | pbool : Bool → PyValue
  | pint : Int → PyValue
  | pstr : String → PyValue
  | pnone : PyValue
deriving DecidableEq

/-- Python str() of a value. -/
def pyStr : PyValue → String
  | PyValue.pbool b => if b then "True" else "False"
  | PyValue.pint n => toString n
  | PyValue.pstr s => s
  | PyValue.pnone => "None"

/-- Python type(value).__name__. -/
def typeName : PyValue → String
  | PyValue.pbool _ => "bool"
  | PyValue.pint _ => "int"
  | PyValue.pstr _ => "str"
  | PyValue.pnone => "NoneType"

/-- isinstance(value, bool). -/
def isinstBool : PyValue → Bool
  | PyValue.pbool _ => true
  | _ => false

/-- isinstance(value, int); Python bool is a subclass of int. -/
def isinstInt : PyValue → Bool
  | PyValue.pbool _ => true
  | PyValue.pint _ => true
  | _ => false

/-- isinstance(value, str). -/
def isinstStr : PyValue → Bool
  | PyValue.pstr _ => true
  | _ => false

/-- isinstance(value, float): false for every modelled value kind, since the
modelled universe carries no float inhabitant. -/
def isinstFloat : PyValue → Bool := fun _ => false

/-- Python float(value) success: numeric kinds always convert, strings
convert when they parse as float literals, None fails with TypeError (which
the callers of interest catch). -/
def pyFloatOk : PyValue → Bool
  | PyValue.pbool _ => true
  | PyValue.pint _ => true
  | PyValue.pstr s => pyFloatStrOk s
  | PyValue.pnone => false

/-- replace of every single quote by a doubled single quote, the left-to-right
non-overlapping semantics of Python str.replace with a one-character needle. -/
def doubleSQ : List Char → List Char
  | [] => []
  | c :: rest => if c = sqc then c :: c :: doubleSQ rest else c :: doubleSQ rest

/-- Left-to-right non-overlapping collapse of each doubled single quote back
to one quote, the Python replace of a doubled quote by a single quote. -/
def collapseSQ : List Char → List Char
  | [] => []
  | [c] => [c]
  | c :: d :: rest =>
      if c = sqc ∧ d = sqc then c :: collapseSQ rest
      else c :: collapseSQ (d :: rest)

/-- String form of the quote-doubling replace. -/
def sqDouble (s : String) : String := String.mk (doubleSQ s.data)

/-- Postgres._single_quote: values of exact type bool / int / float pass
through unchanged; every other value is stringified, every embedded single
quote is doubled, and the result is wrapped in single quotes. -/
def _single_quote (val : PyValue) : PyValue :=
  match val with
  | PyValue.pbool _ => val
  | PyValue.pint _ => val
  | _ => PyValue.pstr (String.singleton sqc ++ sqDouble (pyStr val) ++ String.singleton sqc)

/-- The naive un-quoting described by the round-trip claim: strip the one
layer of wrapping single quotes (first and last character) and un-double
every embedded doubled quote. -/
def unquoteNaive (s : String) : String :=
  String.mk (collapseSQ ((s.data.drop 1).dropLast))

theorem dropLast_append_one (l : List Char) (a : Char) : (l ++ [a]).dropLast = l := by
  simp

theorem collapseSQ_cons_ne (c : Char) (h : c ≠ sqc) (l : List Char) :
    collapseSQ (c :: l) = c :: collapseSQ l := by
  cases l with
  | nil => rfl
  | cons d t =>
      simp only [collapseSQ]
      rw [if_neg]
      intro hc
      exact h hc.1

theorem collapseSQ_doubleSQ (l : List Char) : collapseSQ (doubleSQ l) = l := by
  induction l with
  | nil => rfl
  | cons c rest ih =>
      by_cases h : c = sqc
      · subst h
        simp [doubleSQ, collapseSQ, ih]
      · rw [show doubleSQ (c :: rest) = c :: doubleSQ rest from by
              simp only [doubleSQ, if_neg h]]
        rw [collapseSQ_cons_ne c h, ih]

/-- C3: for every string value, applying the literal-quoting primitive
(_single_quote: double every embedded single quote, wrap in single quotes)
and then naively un-quoting (strip the one wrapping layer, un-double the
embedded doubled quotes) recovers exactly the original string. -/
theorem c3_single_quote_roundtrip (s : String) :
    pyStr (_single_quote (PyValue.pstr s))
      = String.singleton sqc ++ sqDouble s ++ String.singleton sqc
    ∧ unquoteNaive (pyStr (_single_quote (PyValue.pstr s))) = s := by
  constructor
  · rfl
  · show String.mk (collapseSQ ((((String.singleton sqc ++ sqDouble s
        ++ String.singleton sqc).data).drop 1).dropLast)) = s
    have hdata : (String.singleton sqc ++ sqDouble s ++ String.singleton sqc).data
        = sqc :: (doubleSQ s.data ++ [sqc]) := rfl
    rw [hdata]
    show String.mk (collapseSQ ((doubleSQ s.data ++ [sqc]).dropLast)) = s
    rw [dropLast_append_one, collapseSQ_doubleSQ]

/-!  Type coercion: utils.assert_value_dtype  -/

/-- Severity levels of the logger calls that the source makes. -/
inductive LogLevel where
  | debug : LogLevel
  | warning : LogLevel
  | error : LogLevel
deriving DecidableEq

/-- A datetime.datetime value as constructed by assert_value_dtype: calendar
components plus an optional timezone offset in seconds (dateutil tzoffset). -/
structure PyDatetime where
  year : Nat
  month : Nat
  day : Nat
  hour : Nat
  minute : Nat
  second : Nat
  microsecond : Nat
  tz : Option Int
deriving DecidableEq

/-- Coerced values produced by assert_value_dtype.  ofFloat records the value
handed to the Python float constructor; the IEEE numeric result itself is not
inspected anywhere in the repository, so it is not modelled. -/
inductive Coerced where
  | ofPy : PyValue → Coerced
  | ofFloat : PyValue → Coerced
  | ofDt : PyDatetime → Coerced
deriving DecidableEq

/-- Return value of assert_value_dtype: a plain boolean, or the coerced value
when return_coerced_value is set. -/
inductive AVDRet where
  | rb : Bool → AVDRet
  | rc : Coerced → AVDRet
deriving DecidableEq

/-- The valid dtype names accepted by assert_value_dtype. -/
def valid_dtypes : List String :=
  ["bool", "str", "string", "int", "integer", "float", "date", "datetime",
   "path", "path exists"]

/-- One separator character of the date regex: . / - _ or colon. -/
def isSepChar (c : Char) : Bool :=
  c = '.' || c = '/' || c = '-' || c = '_' || c = ':'

/-- Read exactly two ASCII digits. -/
def take2Digits : List Char → Option (Nat × List Char)
  | a :: b :: rest =>
      if a.isDigit && b.isDigit then
        some ((a.toNat - 48) * 10 + (b.toNat - 48), rest)
      else none
  | _ => none

/-- Read exactly four ASCII digits. -/
def take4Digits : List Char → Option (Nat × List Char)
  | a :: b :: c :: d :: rest =>
      if a.isDigit && b.isDigit && c.isDigit && d.isDigit then
        some ((((a.toNat - 48) * 10 + (b.toNat - 48)) * 10 + (c.toNat - 48)) * 10
                + (d.toNat - 48), rest)
      else none
  | _ => none

/-- Read one separator character. -/
def takeSep : List Char → Option (List Char)
  | c :: rest => if isSepChar c then some rest else none
  | [] => none

/-- Calendar components captured by the datetime regexes. -/
structure DTComps where
  year : Nat
  month : Nat
  day : Nat
  hour : Nat
  minute : Nat
  second : Nat
deriving DecidableEq

/-- Parse the date portion YYYY sep MM sep DD of the regex. -/
def parseDateL (cs : List Char) : Option ((Nat × Nat × Nat) × List Char) :=
  match take4Digits cs with
  | none => none
  | some (y, r1) =>
    match takeSep r1 with
    | none => none
    | some r2 =>
      match take2Digits r2 with
      | none => none
      | some (mo, r3) =>
        match takeSep r3 with
        | none => none
        | some r4 =>
          match take2Digits r4 with
          | none => none
          | some (d, r5) => some ((y, mo, d), r5)

/-- Parse the datetime core: date, a space, then HH sep MM sep SS. -/
def parseDTCore (cs : List Char) : Option (DTComps × List Char) :=
  match parseDateL cs with
  | none => none
  | some ((y, mo, d), r) =>
    match r with
    | ' ' :: r1 =>
      match take2Digits r1 with
      | none => none
      | some (h, r2) =>
        match takeSep r2 with
        | none => none
        | some r3 =>
          match take2Digits r3 with
          | none => none
          | some (mi, r4) =>
            match takeSep r4 with
            | none => none
            | some r5 =>
              match take2Digits r5 with
              | none => none
              | some (se, r6) => some (⟨y, mo, d, h, mi, se⟩, r6)
    | _ => none

/-- The trailing timezone minute field: one or two digits running to the end
of the string, matching the anchored greedy regex with backtracking. -/
def tzMinuteTail : List Char → Option Nat
  | [a] => if a.isDigit then some (a.toNat - 48) else none
  | [a, b] =>
      if a.isDigit && b.isDigit then some ((a.toNat - 48) * 10 + (b.toNat - 48))
      else none
  | _ => none

/-- The timezone hour and minute after the sign: one or two digits, a literal
colon, then the minute field.  Pattern order reproduces the greedy
two-digit-first matching of the regex. -/
def tzTail : List Char → Option (Nat × Nat)
  | a :: ':' :: rest =>
      if a.isDigit then (tzMinuteTail rest).map (fun m => (a.toNat - 48, m))
      else none
  | a :: b :: ':' :: rest =>
      if a.isDigit && b.isDigit then
        (tzMinuteTail rest).map (fun m => ((a.toNat - 48) * 10 + (b.toNat - 48), m))
      else none
  | _ => none

/-- Anchored match of the plain date regex. -/
def matchDate (s : String) : Option (Nat × Nat × Nat) :=
  match parseDateL s.data with
  | some (c, rest) => if rest.isEmpty then some c else none
  | none => none

/-- Anchored match of the plain datetime regex. -/
def matchDatetime (s : String) : Option DTComps :=
  match parseDTCore s.data with
  | some (c, rest) => if rest.isEmpty then some c else none
  | none => none

/-- Anchored match of the timezone-qualified datetime regex: core, a sign,
then hour, colon, minute of the offset. -/
def matchDatetimeTz (s : String) : Option (DTComps × Char × Nat × Nat) :=
  match parseDTCore s.data with
  | some (c, rest) =>
    match rest with
    | sign :: r =>
        if sign = '-' || sign = '+' then
          (tzTail r).map (fun p => (c, sign, p.1, p.2))
        else none
    | [] => none
  | none => none

/-- Anchored match of the microsecond-qualified datetime regex: core, a
literal dot, then a nonempty digit run to the end. -/
def matchDatetimeMs (s : String) : Option (DTComps × Nat) :=
  match parseDTCore s.data with
  | some (c, rest) =>
    match rest with
    | '.' :: ds =>
        if !ds.isEmpty && ds.all Char.isDigit then some (c, digitsToNat ds)
        else none
    | _ => none
  | none => none

/-- Gregorian leap-year rule used by the datetime constructor. -/
def isLeapYear (y : Nat) : Bool :=
  (y % 4 = 0 && y % 100 ≠ 0) || y % 400 = 0

/-- Days in a month for the datetime constructor validity check. -/
def daysInMonth (y m : Nat) : Nat :=
  if m = 2 then (if isLeapYear y then 29 else 28)
  else if m = 4 || m = 6 || m = 9 || m = 11 then 30
  else 31

/-- Whether datetime.datetime accepts the captured components; the
constructor raises ValueError outside these ranges. -/
def validDT (c : DTComps) (micro : Nat) : Bool :=
  1 ≤ c.year && c.year ≤ 9999 && 1 ≤ c.month && c.month ≤ 12
    && 1 ≤ c.day && c.day ≤ daysInMonth c.year c.month
    && c.hour ≤ 23 && c.minute ≤ 59 && c.second ≤ 59 && micro ≤ 999999

/-- Whether datetime.datetime accepts a plain date triple. -/
def validDate (y mo d : Nat) : Bool :=
  validDT ⟨y, mo, d, 0, 0, 0⟩ 0

/-- Message of the int conversion error raised inside the int branch. -/
def intErrMsg (v : PyValue) : String :=
  match v with
  | PyValue.pstr s => "invalid literal for int() with base 10: \x27" ++ s ++ "\x27"
  | _ => "int() argument must be a string, a bytes-like object or a real number, not \x27"
          ++ typeName v ++ "\x27"

/-- Message of the float conversion error raised inside the float branch. -/
def floatErrMsg (v : PyValue) : String :=
  match v with
  | PyValue.pstr s => "could not convert string to float: \x27" ++ s ++ "\x27"
  | _ => "float() argument must be a string or a real number, not \x27"
          ++ typeName v ++ "\x27"

/-- Message of the ValueError raised by the datetime constructor on
out-of-range components (the exact Python text names the offending field;
only the fact that an error escapes is relied on here). -/
def dtValueErrMsg : String := "ValueError raised by the datetime constructor"

/-- The dtype dispatch of assert_value_dtype: computes the optional coerced
value the Python body leaves in coerced_value, together with any exception
escaping the branch and the warning log entries emitted on caught conversion
errors when stop is not set.  The fs argument is the filesystem oracle
consulted only by the impure path-exists branch. -/
def avdBranch (fs : String → Bool) (value : PyValue) (dtype : String)
    (stop : Bool) : Except String (Option Coerced) × List (LogLevel × String) :=
  if dtype = "bool" then
    if isinstBool value then (Except.ok (some (Coerced.ofPy value)), [])
    else if ["true", "t", "yes", "y"].contains (strLower (pyStr value)) then
      (Except.ok (some (Coerced.ofPy (PyValue.pbool true))), [])
    else if ["false", "f", "no", "n"].contains (strLower (pyStr value)) then
      (Except.ok (some (Coerced.ofPy (PyValue.pbool false))), [])
    else (Except.ok none, [])
  else if dtype = "str" ∨ dtype = "string" then
    (Except.ok (some (Coerced.ofPy (PyValue.pstr (pyStr value)))), [])
  else if dtype = "int" ∨ dtype = "integer" then
    if isinstInt value then (Except.ok (some (Coerced.ofPy value)), [])
    else if pyIsdigit (pyStr value) then
      (Except.ok ((pyIntOfStr (pyStr value)).map (fun n => Coerced.ofPy (PyValue.pint n))), [])
    else
      match value with
      | PyValue.pstr s =>
        (match pyIntOfStr s with
         | some n => (Except.ok (some (Coerced.ofPy (PyValue.pint n))), [])
         | none =>
             if stop then (Except.error (intErrMsg value), [])
             else (Except.ok none, [(LogLevel.warning, intErrMsg value)]))
      | _ =>
          if stop then (Except.error (intErrMsg value), [])
          else (Except.ok none, [(LogLevel.warning, intErrMsg value)])
  else if dtype = "float" then
    if isinstFloat value || isinstInt value then
      (Except.ok (some (Coerced.ofFloat value)), [])
    else if isSubstrOf "." (pyStr value) then
      (if pyFloatOk value then (Except.ok (some (Coerced.ofFloat value)), [])
       else if stop then (Except.error (floatErrMsg value), [])
       else (Except.ok none, [(LogLevel.warning, floatErrMsg value)]))
    else (Except.ok none, [])
  else if dtype = "date" then
    match matchDate (pyStrip (pyStr value)) with
    | some (y, mo, d) =>
        if validDate y mo d then
          (Except.ok (some (Coerced.ofDt ⟨y, mo, d, 0, 0, 0, 0, none⟩)), [])
        else (Except.error dtValueErrMsg, [])
    | none => (Except.ok none, [])
  else if dtype = "datetime" then
    match matchDatetime (pyStrip (pyStr value)) with
    | some c =>
        if validDT c 0 then
          (Except.ok (some (Coerced.ofDt
            ⟨c.year, c.month, c.day, c.hour, c.minute, c.second, 0, none⟩)), [])
        else (Except.error dtValueErrMsg, [])
    | none =>
      match matchDatetimeTz (pyStrip (pyStr value)) with
      | some (c, sign, tzh, _tzm) =>
          let off : Int := (tzh : Int) * 60 * 60
          let off : Int := if sign = '-' then -off else off
          if validDT c 0 then
            (Except.ok (some (Coerced.ofDt
              ⟨c.year, c.month, c.day, c.hour, c.minute, c.second, 0, some off⟩)), [])
          else (Except.error dtValueErrMsg, [])
      | none =>
        match matchDatetimeMs (pyStrip (pyStr value)) with
        | some (c, micro) =>
            if validDT c micro then
              (Except.ok (some (Coerced.ofDt
                ⟨c.year, c.month, c.day, c.hour, c.minute, c.second, micro, none⟩)), [])
            else (Except.error dtValueErrMsg, [])
        | none => (Except.ok none, [])
  else if dtype = "path" then
    match value with
    | PyValue.pstr s =>
        if isSubstrOf "/" s || s = "." then (Except.ok (some (Coerced.ofPy value)), [])
        else (Except.ok none, [])
    | _ => (Except.error ("argument of type \x27" ++ typeName value
              ++ "\x27 is not iterable"), [])
  else if dtype = "path exists" then
    match value with
    | PyValue.pstr s =>
        if fs s then (Except.ok (some (Coerced.ofPy value)), [])
        else (Except.ok none, [])
    | _ => (Except.error ("TypeError raised by os.path.isfile"), [])
  else (Except.ok none, [])

/-- The diagnostic string built at the close of assert_value_dtype: it names
the value, its observed Python type, and the target dtype. -/
def coerceFailMsg (value : PyValue) (dtype : String) : String :=
  "Unable to coerce value \x27" ++ pyStr value ++ "\x27 (dtype: "
    ++ typeName value ++ ") to " ++ dtype

/-- utils.assert_value_dtype: asserts the dtype name is valid, runs the
dtype-specific branch, then closes: on a missing coerced value it logs the
diagnostic at debug level and raises ValueError when return_coerced_value is
set or returns the boolean false otherwise; on success it returns the
coerced value or the boolean true. -/
def assert_value_dtype (fs : String → Bool) (value : PyValue) (dtype : String)
    (return_coerced_value : Bool) (stop : Bool) :
    Except String AVDRet × List (LogLevel × String) :=
  if valid_dtypes.contains dtype = false then
    (Except.error ("Datatype must be one of " ++ String.intercalate ", " valid_dtypes), [])
  else
    match avdBranch fs value dtype stop with
    | (Except.error e, logs) => (Except.error e, logs)
    | (Except.ok none, logs) =>
        let d := coerceFailMsg value dtype
        if return_coerced_value then
          (Except.error d, logs ++ [(LogLevel.debug, d)])
        else
          (Except.ok (AVDRet.rb false), logs ++ [(LogLevel.debug, d)])
    | (Except.ok (some c), logs) =>
        if return_coerced_value then (Except.ok (AVDRet.rc c), logs)
        else (Except.ok (AVDRet.rb true), logs)

/-- A constant-false filesystem oracle used wherever the path-exists branch
is irrelevant. -/
def fsNone : String → Bool := fun _ => false

/-- The boolean use assert_value_dtype(val, dtype) of the statement builders:
default flags, truthiness of the returned value. -/
def avdCheck (v : PyValue) (dt : String) : Bool :=
  match (assert_value_dtype fsNone v dt false false).1 with
  | Except.ok (AVDRet.rb b) => b
  | _ => false

/-!  Postgres class: catalog model, validate_dtype, statement builders  -/

/-- Postgres.null_equivalents: the lowercase sentinel tokens plus their
uppercase forms, exactly as the constructor builds the list. -/
def null_equivalents : List String :=
  ["nan", "n/a", "null", "none", ""]
    ++ (["nan", "n/a", "null", "none", ""].map strUpper)

/-- The membership test str(val).lower() in null_equivalents used by both
builders. -/
def nullEquivCheck (val : PyValue) : Bool :=
  null_equivalents.contains (strLower (pyStr val))

/-- Postgres.get_table_name: qualified name, schema optional. -/
def get_table_name (schema_name : Option String) (table_name : String) : String :=
  match schema_name with
  | none => table_name
  | some s => s ++ "." ++ table_name

/-- One row of information_schema.columns as validate_dtype consumes it
(is_nullable already mapped YES/NO to a boolean by infoschema). -/
structure ColumnInfo where
  table_schema : String
  table_name : String
  column_name : String
  data_type : String
  is_nullable : Bool
deriving DecidableEq

/-- The catalog metadata visible through infoschema, one row per column. -/
def Catalog : Type := List ColumnInfo

/-- The builtin-table schema override at the top of validate_dtype: tables
named pg_* are forced into the pg_catalog schema. -/
def vdSchema (schemaIn : Option String) (table : String) : Option String :=
  if pyStartsWith table "pg_" then some "pg_catalog" else schemaIn

/-- The fully qualified column name validate_dtype builds for messages. -/
def vdFullCol (schemaIn : Option String) (table col : String) : String :=
  get_table_name (vdSchema schemaIn table) table ++ "." ++ col

/-- The row filter of validate_dtype: schema, table and column must all
match; a missing schema (pandas comparison with None) matches nothing. -/
def colMatches (schema : Option String) (table col : String) (r : ColumnInfo) : Bool :=
  (match schema with
   | some s => r.table_schema == s
   | none => false)
    && r.table_name == table && r.column_name == col

/-- The filtered information_schema rows of validate_dtype. -/
def vdRows (cat : Catalog) (schemaIn : Option String) (table col : String) :
    List ColumnInfo :=
  cat.filter (colMatches (vdSchema schemaIn table) table col)

/-- The single row validate_dtype squeezes out of the filtered frame (the
source assumes at most one matching row). -/
def vdHead (cat : Catalog) (schemaIn : Option String) (table col : String) :
    Option ColumnInfo :=
  (vdRows cat schemaIn table col).head?

/-- Postgres.col_dtypes followed by the [col] lookup: the column to datatype
dictionary of the table, where a later duplicate row overwrites an earlier
one, then the datatype of the requested column. -/
def colDtypeLookup (cat : Catalog) (schema : Option String) (table col : String) :
    Option String :=
  (((cat.filter (fun r =>
        (match schema with
         | some s => r.table_schema == s
         | none => false) && r.table_name == table)).reverse).find?
      (fun r => r.column_name == col)).map (fun r => r.data_type)

/-- The dtype_map dictionary of validate_dtype, in insertion order. -/
def dtype_map : List (String × String) :=
  [("bigint", "int"), ("int8", "int"), ("bigserial", "int"), ("serial8", "int"),
   ("integer", "int"), ("int", "int"), ("int4", "int"), ("smallint", "int"),
   ("int2", "int"), ("double precision", "float"), ("float", "float"),
   ("float4", "float"), ("float8", "float"), ("numeric", "float"),
   ("decimal", "float"), ("character", "str"), ("char", "str"),
   ("character varying", "str"), ("varchar", "str"), ("text", "str"),
   ("date", "str"), ("timestamp", "str"), ("timestamp with time zone", "str"),
   ("timestamp without time zone", "str"), ("name", "str"),
   ("boolean", "bool"), ("bool", "bool")]

/-- The bucket selection the code performs: the comprehension keeps every map
value whose KEY CONTAINS the reported datatype as a substring (dtype in k),
and the first survivor wins. -/
def pythonDtypeOfCode (dtype : String) : Option String :=
  ((dtype_map.filter (fun kv => isSubstrOf dtype kv.1)).map (fun kv => kv.2)).head?

/-- The bucket selection in the words of the spec, for comparison only: the
first mapping entry whose key is a substring of the reported datatype wins
(so a reported "character varying(255)" would still match). -/
def pythonDtypeSpecClaim (dtype : String) : Option String :=
  ((dtype_map.filter (fun kv => isSubstrOf kv.1 dtype)).map (fun kv => kv.2)).head?

/-- The error-level message logged when no bucket matches (the Python text
also reprs the set of known buckets, whose ordering the interpreter leaves
unspecified; that suffix is elided). -/
def unknownDtypeMsg (fullCol dtype : String) : String :=
  "Unable to match SQL column \x27" ++ fullCol ++ "\x27 datatype " ++ dtype
    ++ " to any known Python datatypes"

/-- The debug-level message prepared for an incompatible pair. -/
def incompatibleMsg (fullCol dtype : String) (val : PyValue) : String :=
  "Incompatible datatypes! SQL column " ++ fullCol ++ " has type\n        `"
    ++ dtype ++ "`, and Python value `" ++ pyStr val ++ "` is of type `"
    ++ typeName val ++ "`."

/-- Postgres.validate_dtype after the builtin-schema override: looks up the
column row (asserting existence), handles the exact NULL / None value via the
nullability flag, otherwise maps the reported datatype to a bucket with
pythonDtypeOfCode and dispatches the bucket-specific compatibility rules.
Returns the boolean verdict together with the log entries emitted. -/
def validate_dtype (cat : Catalog) (schemaIn : Option String) (table col : String)
    (val : PyValue) : Except String (Bool × List (LogLevel × String)) :=
  match vdHead cat schemaIn table col with
  | none => Except.error ("Nonexistent column " ++ vdFullCol schemaIn table col)
  | some row =>
    if val = PyValue.pstr "NULL" ∨ val = PyValue.pnone then
      (if row.is_nullable then Except.ok (true, [])
       else Except.ok (false,
         [(LogLevel.error, "Value \x27NULL\x27 (dtype: " ++ typeName val
             ++ ") not allowed for column " ++ vdFullCol schemaIn table col)]))
    else
      match colDtypeLookup cat (vdSchema schemaIn table) table col with
      | none => Except.error ("KeyError: \x27" ++ col ++ "\x27")
      | some dtype =>
        match pythonDtypeOfCode dtype with
        | none =>
            Except.ok (false,
              [(LogLevel.error, unknownDtypeMsg (vdFullCol schemaIn table col) dtype)])
        | some python_dtype =>
          let msg := incompatibleMsg (vdFullCol schemaIn table col) dtype val
          if typeName val = "date" ∨ typeName val = "datetime" then
            Except.ok (isSubstrOf "date" dtype || isSubstrOf "timestamp" dtype, [])
          else if python_dtype = "bool" then
            (if isinstBool val then Except.ok (true, [])
             else match val with
               | PyValue.pstr s =>
                   if ["t", "true", "f", "false"].contains (strLower s) then
                     Except.ok (true, [])
                   else Except.ok (false, [(LogLevel.debug, msg)])
               | _ => Except.ok (false, [(LogLevel.debug, msg)]))
          else if python_dtype = "int" then
            (if isinstInt val then Except.ok (true, [])
             else match val with
               | PyValue.pstr s =>
                   (match pyIntOfStr s with
                    | some _ => Except.ok (true, [])
                    | none => Except.ok (false, [(LogLevel.debug, msg)]))
               | _ => Except.ok (false, [(LogLevel.debug, msg)]))
          else if python_dtype = "float" then
            (if isinstFloat val then Except.ok (true, [])
             else if pyFloatOk val then Except.ok (true, [])
             else Except.ok (false, [(LogLevel.debug, msg)]))
          else if python_dtype = "str" then
            (if isinstStr val then Except.ok (true, [])
             else Except.ok (false, [(LogLevel.debug, msg)]))
          else Except.ok (true, [])

/-- The per-value rendering decision of build_update: null sentinel becomes
the bare uppercase NULL token, values passing the bool / int / float coercion
checks pass through unquoted, everything else is literal-quoted. -/
def renderUpdateVal (val : PyValue) : PyValue :=
  if nullEquivCheck val then PyValue.pstr "NULL"
  else if avdCheck val "bool" || avdCheck val "int" || avdCheck val "float" then val
  else _single_quote val

/-- The per-value rendering decision of build_insert: identical to the UPDATE
one except the sentinel becomes the bare lowercase null token. -/
def renderInsertVal (val : PyValue) : PyValue :=
  if nullEquivCheck val then PyValue.pstr "null"
  else if avdCheck val "bool" || avdCheck val "int" || avdCheck val "float" then val
  else _single_quote val

/-- The text of one SET entry of build_update. -/
def updateEntryText (newlines : Bool) (col : String) (rv : PyValue) : String :=
  (if newlines then "\n    " else "") ++ "\"" ++ col ++ "\"=" ++ pyStr rv

/-- The loop body of build_update over the zipped column/value pairs:
optional validation (raising on the first incompatible pair), then the
rendered SET entries in order. -/
def updateEntries (cat : Catalog) (schemaIn : Option String) (table : String)
    (validate newlines : Bool) : List (String × PyValue) → Except String (List String)
  | [] => Except.ok []
  | (col, val) :: rest =>
    match (if validate then validate_dtype cat schemaIn table col val
           else Except.ok (true, [])) with
    | Except.error e => Except.error e
    | Except.ok (test, _) =>
      if test = false then
        Except.error ("Dtype mismatch. Value: " ++ pyStr val ++ ", dtype: "
          ++ typeName val ++ ", column: " ++ col)
      else
        match updateEntries cat schemaIn table validate newlines rest with
        | Except.error e => Except.error e
        | Except.ok entries =>
            Except.ok (updateEntryText newlines col (renderUpdateVal val) :: entries)

/-- Postgres.build_update: length check, primary-key quoting, per-pair
validation and rendering, then assembly of the UPDATE template (the newline
variant strips the first SET entry and raises IndexError when the entry list
is empty, as the subscript does in Python). -/
def build_update (cat : Catalog) (schema_name : Option String)
    (table_name pkey_name : String) (pkey_value : PyValue)
    (columns : List String) (values : List PyValue)
    (validate newlines : Bool) : Except String String :=
  if columns.length ≠ values.length then
    Except.error "Parameters `columns` and `values` must be of equal length"
  else
    let pk := _single_quote pkey_value
    match updateEntries cat schema_name table_name validate newlines
        (columns.zip values) with
    | Except.error e => Except.error e
    | Except.ok lst =>
      if newlines then
        match lst with
        | [] => Except.error "IndexError: list index out of range"
        | h :: t =>
            Except.ok ("UPDATE " ++ get_table_name schema_name table_name
              ++ "\nSET " ++ String.intercalate ", " (pyStrip h :: t)
              ++ "\nWHERE \"" ++ pkey_name ++ "\" = " ++ pyStr pk)
      else
        Except.ok ("UPDATE " ++ get_table_name schema_name table_name
          ++ " SET " ++ String.intercalate ", " lst
          ++ " WHERE \"" ++ pkey_name ++ "\" = " ++ pyStr pk)

/-- The loop body of build_insert: optional validation (raising on the first
incompatible pair, with the multi-line message of the source), then the
rendered values in order. -/
def insertEntries (cat : Catalog) (schemaIn : Option String) (table : String)
    (validate : Bool) : List (String × PyValue) → Except String (List PyValue)
  | [] => Except.ok []
  | (col, val) :: rest =>
    match (if validate then validate_dtype cat schemaIn table col val
           else Except.ok (true, [])) with
    | Except.error e => Except.error e
    | Except.ok (test, _) =>
      if test = false then
        Except.error ("Value \x27" ++ pyStr val ++ "\x27 (dtype: " ++ typeName val
          ++ ")\n                    is incompatible with column \x27" ++ col ++ "\x27 ")
      else
        match insertEntries cat schemaIn table validate rest with
        | Except.error e => Except.error e
        | Except.ok entries => Except.ok (renderInsertVal val :: entries)

/-- The textual replace of every quoted-null sequence by the bare word null
that build_insert applies to the joined VALUES text, with the left-to-right
non-overlapping semantics of Python str.replace. -/
def replaceNullQuoted : List Char → List Char
  | c1 :: c2 :: c3 :: c4 :: c5 :: c6 :: rest =>
      if c1 = sqc ∧ c2 = 'n' ∧ c3 = 'u' ∧ c4 = 'l' ∧ c5 = 'l' ∧ c6 = sqc then
        'n' :: 'u' :: 'l' :: 'l' :: replaceNullQuoted rest
      else c1 :: replaceNullQuoted (c2 :: c3 :: c4 :: c5 :: c6 :: rest)
  | c :: rest => c :: replaceNullQuoted rest
  | [] => []

/-- String form of the quoted-null replace. -/
def replaceNullQuotedStr (s : String) : String :=
  String.mk (replaceNullQuoted s.data)

/-- Postgres.build_insert: length check, per-pair validation and rendering,
comma-join of the stringified values, the quoted-null textual replace, the
quoted column list, then assembly of the INSERT template. -/
def build_insert (cat : Catalog) (schema_name : Option String)
    (table_name : String) (columns : List String) (values : List PyValue)
    (validate newlines : Bool) : Except String String :=
  if columns.length ≠ values.length then
    Except.error "Parameters `columns` and `values` must be of equal length"
  else
    match insertEntries cat schema_name table_name validate
        (columns.zip values) with
    | Except.error e => Except.error e
    | Except.ok lst =>
      let values_final := replaceNullQuotedStr
        (String.intercalate ", " (lst.map pyStr))
      let columns_str := String.intercalate ", "
        (columns.map (fun x => "\"" ++ x ++ "\""))
      let t := get_table_name schema_name table_name
      Except.ok
        (if newlines then
          "insert into " ++ t ++ " (" ++ columns_str ++ ")\nvalues ("
            ++ values_final ++ ")"
         else
          "insert into " ++ t ++ " (" ++ columns_str ++ ") values ("
            ++ values_final ++ ")")

/-- Postgres.build_delete: a list primary-key value renders as an IN list
with each element independently literal-quoted; a scalar renders as an
equality against the literal-quoted value. -/
def build_delete (schema_name : Option String) (table_name pkey_name : String)
    (pkey_value : PyValue ⊕ List PyValue) (newlines : Bool) : String :=
  let t := get_table_name schema_name table_name
  match pkey_value with
  | Sum.inr xs =>
      let pkey_value_str := String.intercalate ", " ((xs.map _single_quote).map pyStr)
      if newlines then
        "delete from " ++ t ++ "\nwhere " ++ pkey_name ++ " in (" ++ pkey_value_str ++ ")"
      else
        "delete from " ++ t ++ " where " ++ pkey_name ++ " in (" ++ pkey_value_str ++ ")"
  | Sum.inl v =>
      let pkey_value_str := pyStr (_single_quote v)
      if newlines then
        "delete from " ++ t ++ "\nwhere " ++ pkey_name ++ " = " ++ pkey_value_str
      else
        "delete from " ++ t ++ " where " ++ pkey_name ++ " = " ++ pkey_value_str

/-!  Helper lemmas  -/

theorem updateEntries_length (cat : Catalog) (schemaIn : Option String)
    (table : String) (validate newlines : Bool) :
    ∀ (pairs : List (String × PyValue)) (l : List String),
      updateEntries cat schemaIn table validate newlines pairs = Except.ok l →
      l.length = pairs.length := by
  intro pairs
  induction pairs with
  | nil =>
      intro l hl
      simp only [updateEntries] at hl
      cases hl
      rfl
  | cons p rest ih =>
      intro l hl
      obtain ⟨col, val⟩ := p
      simp only [updateEntries] at hl
      cases hv : (if validate then validate_dtype cat schemaIn table col val
                  else Except.ok (true, [])) with
      | error e => rw [hv] at hl; cases hl
      | ok pr =>
          rw [hv] at hl
          obtain ⟨test, logs⟩ := pr
          dsimp only at hl
          by_cases ht : test = false
          · simp [ht] at hl
          · rw [if_neg ht] at hl
            cases he : updateEntries cat schemaIn table validate newlines rest with
            | error e => rw [he] at hl; cases hl
            | ok entries =>
                rw [he] at hl
                cases hl
                simp [ih entries he]

theorem insertEntries_length (cat : Catalog) (schemaIn : Option String)
    (table : String) (validate : Bool) :
    ∀ (pairs : List (String × PyValue)) (l : List PyValue),
      insertEntries cat schemaIn table validate pairs = Except.ok l →
      l.length = pairs.length := by
  intro pairs
  induction pairs with
  | nil =>
      intro l hl
      simp only [insertEntries] at hl
      cases hl
      rfl
  | cons p rest ih =>
      intro l hl
      obtain ⟨col, val⟩ := p
      simp only [insertEntries] at hl
      cases hv : (if validate then validate_dtype cat schemaIn table col val
                  else Except.ok (true, [])) with
      | error e => rw [hv] at hl; cases hl
      | ok pr =>
          rw [hv] at hl
          obtain ⟨test, logs⟩ := pr
          dsimp only at hl
          by_cases ht : test = false
          · simp [ht] at hl
          · rw [if_neg ht] at hl
            cases he : insertEntries cat schemaIn table validate rest with
            | error e => rw [he] at hl; cases hl
            | ok entries =>
                rw [he] at hl
                cases hl
                simp [ih entries he]

theorem validate_int_pass (cat : Catalog) (schemaIn : Option String)
    (table col : String) (n : Int) (row : ColumnInfo) (dtype : String)
    (hrow : vdHead cat schemaIn table col = some row)
    (hdt : colDtypeLookup cat (vdSchema schemaIn table) table col = some dtype)
    (hb : pythonDtypeOfCode dtype = some "int") :
    validate_dtype cat schemaIn table col (PyValue.pint n) = Except.ok (true, []) := by
  simp only [validate_dtype]
  rw [hrow]
  simp [hdt, hb, typeName, isinstInt]

/-!  Claim theorems  -/

/-- C1: for every pair of column and value lists handed to build_update or
build_insert, differing lengths raise the length exception before any
validation or rendering (the error is the same for every catalog and
validation flag), and an update or insert that renders successfully renders
exactly one entry per input pair, so the rendered column count equals the
input length. -/
theorem c1_length_contract (cat : Catalog) (schema : Option String)
    (table pkeyName : String) (pkeyValue : PyValue) (cols : List String)
    (vals : List PyValue) (validate newlines : Bool) :
    (cols.length ≠ vals.length →
      build_update cat schema table pkeyName pkeyValue cols vals validate newlines
        = Except.error "Parameters `columns` and `values` must be of equal length"
      ∧ build_insert cat schema table cols vals validate newlines
        = Except.error "Parameters `columns` and `values` must be of equal length")
    ∧ (cols.length = vals.length →
       (∀ s, build_update cat schema table pkeyName pkeyValue cols vals validate newlines
            = Except.ok s →
          ∃ l, updateEntries cat schema table validate newlines (cols.zip vals)
                = Except.ok l
            ∧ l.length = cols.length)
       ∧ (∀ s, build_insert cat schema table cols vals validate newlines
            = Except.ok s →
          ∃ l, insertEntries cat schema table validate (cols.zip vals) = Except.ok l
            ∧ l.length = cols.length)) := by
  constructor
  · intro h
    constructor
    · simp [build_update, h]
    · simp [build_insert, h]
  · intro h
    constructor
    · intro s hs
      cases he : updateEntries cat schema table validate newlines (cols.zip vals) with
      | error e =>
          exfalso
          simp [build_update, he, h] at hs
      | ok l =>
          refine ⟨l, rfl, ?_⟩
          have := updateEntries_length cat schema table validate newlines
            (cols.zip vals) l he
          simp [this, List.length_zip, h]
    · intro s hs
      cases he : insertEntries cat schema table validate (cols.zip vals) with
      | error e =>
          exfalso
          simp [build_insert, he, h] at hs
      | ok l =>
          refine ⟨l, rfl, ?_⟩
          have := insertEntries_length cat schema table validate (cols.zip vals) l he
          simp [this, List.length_zip, h]

/-- Witness for C1 at a concrete mismatched pair. -/
theorem c1_length_contract_witness :
    build_update [] none "t" "p" (PyValue.pint 1) ["a"] [] false false
      = Except.error "Parameters `columns` and `values` must be of equal length" :=
  ((c1_length_contract [] none "t" "p" (PyValue.pint 1) ["a"] [] false false).1
    (by decide)).1

/-- C2: every value whose string form, case-folded, is one of the
null-sentinel tokens renders in build_update as the bare unquoted uppercase
token NULL and in build_insert as the bare unquoted lowercase token null. -/
theorem c2_null_sentinel_rendering (v : PyValue) (col : String) (cat : Catalog)
    (schema : Option String) (table : String)
    (h : nullEquivCheck v = true) :
    renderUpdateVal v = PyValue.pstr "NULL"
    ∧ renderInsertVal v = PyValue.pstr "null"
    ∧ updateEntries cat schema table false false [(col, v)]
        = Except.ok [updateEntryText false col (PyValue.pstr "NULL")]
    ∧ insertEntries cat schema table false [(col, v)]
        = Except.ok [PyValue.pstr "null"] := by
  have h1 : renderUpdateVal v = PyValue.pstr "NULL" := by
    simp [renderUpdateVal, h]
  have h2 : renderInsertVal v = PyValue.pstr "null" := by
    simp [renderInsertVal, h]
  refine ⟨h1, h2, ?_, ?_⟩
  · simp [updateEntries, h1]
  · simp [insertEntries, h2]

/-- Witness for C2 at the token NaN, which the claim names explicitly. -/
theorem c2_null_sentinel_rendering_witness :
    nullEquivCheck (PyValue.pstr "NaN") = true
    ∧ renderUpdateVal (PyValue.pstr "NaN") = PyValue.pstr "NULL"
    ∧ renderInsertVal (PyValue.pstr "NaN") = PyValue.pstr "null" :=
  ⟨by decide,
   (c2_null_sentinel_rendering (PyValue.pstr "NaN") "c" [] none "t" (by decide)).1,
   (c2_null_sentinel_rendering (PyValue.pstr "NaN") "c" [] none "t" (by decide)).2.1⟩

/-- Counterexample to C4 as stated: the code keeps a mapping entry when the
reported datatype is a substring of the KEY, not the other way round, so the
parenthesised reported type character varying(255) matches no entry and the
value check fails closed instead of reaching the str bucket promised by the
claim. -/
theorem c4_counterexample :
    pythonDtypeSpecClaim "character varying(255)" = some "str"
    ∧ pythonDtypeOfCode "character varying(255)"
        ≠ pythonDtypeSpecClaim "character varying(255)"
    ∧ validate_dtype [⟨"s", "t", "c", "character varying(255)", true⟩]
        (some "s") "t" "c" (PyValue.pstr "x")
      = Except.ok (false,
          [(LogLevel.error, unknownDtypeMsg "s.t.c" "character varying(255)")]) := by
  refine ⟨by decide, by decide, by rfl⟩

/-- C4 amended: the semantic bucket is determined by the first dtype_map
entry whose KEY CONTAINS the catalog-reported datatype as a substring (an
exactly-reported character varying maps to the str bucket, while a
parenthesised character varying(255) matches no entry), and whenever no
entry matches, validate_dtype logs the failure and returns false for every
non-null value of an existing column, never raising. -/
theorem c4_bucket_matching_amended :
    (∀ (cat : Catalog) (schemaIn : Option String) (table col : String)
       (val : PyValue) (row : ColumnInfo) (dtype : String),
       vdHead cat schemaIn table col = some row →
       ¬ (val = PyValue.pstr "NULL" ∨ val = PyValue.pnone) →
       colDtypeLookup cat (vdSchema schemaIn table) table col = some dtype →
       pythonDtypeOfCode dtype = none →
       validate_dtype cat schemaIn table col val
         = Except.ok (false,
             [(LogLevel.error, unknownDtypeMsg (vdFullCol schemaIn table col) dtype)]))
    ∧ pythonDtypeOfCode "character varying" = some "str"
    ∧ pythonDtypeOfCode "character varying(255)" = none := by
  refine ⟨?_, by decide, by decide⟩
  intro cat schemaIn table col val row dtype hrow hnn hdt hb
  simp only [validate_dtype]
  rw [hrow]
  dsimp only
  rw [if_neg hnn, hdt]
  dsimp only
  rw [hb]

/-- Witness for the amended C4 at a concrete unknown datatype. -/
theorem c4_bucket_matching_amended_witness :
    validate_dtype [⟨"s", "t", "c", "oid", true⟩] (some "s") "t" "c"
        (PyValue.pstr "x")
      = Except.ok (false,
          [(LogLevel.error, unknownDtypeMsg (vdFullCol (some "s") "t" "c") "oid")]) :=
  (c4_bucket_matching_amended).1 [⟨"s", "t", "c", "oid", true⟩] (some "s") "t" "c"
    (PyValue.pstr "x") ⟨"s", "t", "c", "oid", true⟩ "oid" rfl (by decide) rfl (by decide)

/-- Counterexample to C5 as stated: the lowercase sentinel token null, a
member of the NullSentinel set, does not reach the nullability branch of
validate_dtype (which tests only the exact string NULL or None); on a
nullable int column it is routed through the int bucket and rejected, where
the claim promises true. -/
theorem c5_counterexample :
    nullEquivCheck (PyValue.pstr "null") = true
    ∧ validate_dtype [⟨"s", "t", "c", "integer", true⟩] (some "s") "t" "c"
        (PyValue.pstr "null")
      = Except.ok (false,
          [(LogLevel.debug, incompatibleMsg "s.t.c" "integer" (PyValue.pstr "null"))]) := by
  refine ⟨by decide, by rfl⟩

/-- C5 amended: only the exact string NULL or the value None trigger the
nullability branch; for those, validate_dtype of an existing column returns
exactly the nullability flag and, when the column is not nullable, logs at
error level a message naming the fully qualified column. -/
theorem c5_null_branch_amended (cat : Catalog) (schemaIn : Option String)
    (table col : String) (val : PyValue) (row : ColumnInfo)
    (hval : val = PyValue.pstr "NULL" ∨ val = PyValue.pnone)
    (hrow : vdHead cat schemaIn table col = some row) :
    validate_dtype cat schemaIn table col val
      = Except.ok (row.is_nullable,
          if row.is_nullable then []
          else [(LogLevel.error, "Value \x27NULL\x27 (dtype: " ++ typeName val
              ++ ") not allowed for column " ++ vdFullCol schemaIn table col)]) := by
  simp only [validate_dtype]
  rw [hrow]
  dsimp only
  rw [if_pos hval]
  by_cases hn : row.is_nullable <;> simp [hn]

/-- Witness for the amended C5: None against a non-nullable column. -/
theorem c5_null_branch_amended_witness :
    validate_dtype [⟨"s", "t", "c", "text", false⟩] (some "s") "t" "c" PyValue.pnone
      = Except.ok (false,
          [(LogLevel.error,
            "Value \x27NULL\x27 (dtype: NoneType) not allowed for column s.t.c")]) := by
  have := c5_null_branch_amended [⟨"s", "t", "c", "text", false⟩] (some "s") "t" "c"
    PyValue.pnone ⟨"s", "t", "c", "text", false⟩ (Or.inr rfl) rfl
  exact this

/-- C6: with validation on and a catalog whose rows report int-bucket
datatypes for the two target columns (so validation passes), build_update on
the pg_stat_database scenario returns exactly the expected statement text. -/
theorem c6_build_update_scenario (cat : Catalog) (row1 row2 : ColumnInfo)
    (dt1 dt2 : String)
    (hr1 : vdHead cat (some "pg_catalog") "pg_stat_database" "tup_returned" = some row1)
    (hd1 : colDtypeLookup cat (vdSchema (some "pg_catalog") "pg_stat_database")
        "pg_stat_database" "tup_returned" = some dt1)
    (hb1 : pythonDtypeOfCode dt1 = some "int")
    (hr2 : vdHead cat (some "pg_catalog") "pg_stat_database" "tup_fetched" = some row2)
    (hd2 : colDtypeLookup cat (vdSchema (some "pg_catalog") "pg_stat_database")
        "pg_stat_database" "tup_fetched" = some dt2)
    (hb2 : pythonDtypeOfCode dt2 = some "int") :
    build_update cat (some "pg_catalog") "pg_stat_database" "datid"
        (PyValue.pint 12345) ["tup_returned", "tup_fetched"]
        [PyValue.pint 11111, PyValue.pint 22222] true false
      = Except.ok "UPDATE pg_catalog.pg_stat_database SET \"tup_returned\"=11111, \"tup_fetched\"=22222 WHERE \"datid\" = 12345" := by
  have hv1 := validate_int_pass cat (some "pg_catalog") "pg_stat_database"
    "tup_returned" 11111 row1 dt1 hr1 hd1 hb1
  have hv2 := validate_int_pass cat (some "pg_catalog") "pg_stat_database"
    "tup_fetched" 22222 row2 dt2 hr2 hd2 hb2
  have he : updateEntries cat (some "pg_catalog") "pg_stat_database" true false
      (["tup_returned", "tup_fetched"].zip [PyValue.pint 11111, PyValue.pint 22222])
      = Except.ok ["\"tup_returned\"=11111", "\"tup_fetched\"=22222"] := by
    show updateEntries cat (some "pg_catalog") "pg_stat_database" true false
      [("tup_returned", PyValue.pint 11111), ("tup_fetched", PyValue.pint 22222)] = _
    simp only [updateEntries, if_pos rfl, hv1, hv2]
    rfl
  simp only [build_update, he]
  rfl

/-- Witness for C6 with a concrete catalog reporting bigint for both
columns. -/
theorem c6_build_update_scenario_witness :
    build_update
        [⟨"pg_catalog", "pg_stat_database", "tup_returned", "bigint", true⟩,
         ⟨"pg_catalog", "pg_stat_database", "tup_fetched", "bigint", true⟩]
        (some "pg_catalog") "pg_stat_database" "datid" (PyValue.pint 12345)
        ["tup_returned", "tup_fetched"] [PyValue.pint 11111, PyValue.pint 22222]
        true false
      = Except.ok "UPDATE pg_catalog.pg_stat_database SET \"tup_returned\"=11111, \"tup_fetched\"=22222 WHERE \"datid\" = 12345" :=
  c6_build_update_scenario
    [⟨"pg_catalog", "pg_stat_database", "tup_returned", "bigint", true⟩,
     ⟨"pg_catalog", "pg_stat_database", "tup_fetched", "bigint", true⟩]
    ⟨"pg_catalog", "pg_stat_database", "tup_returned", "bigint", true⟩
    ⟨"pg_catalog", "pg_stat_database", "tup_fetched", "bigint", true⟩
    "bigint" "bigint" rfl rfl (by decide) rfl rfl (by decide)

/-- C7: build_delete renders a list primary-key value as an IN list with
each element independently literal-quoted, and renders the concrete scalar
scenario to exactly the expected text. -/
theorem c7_build_delete_rendering :
    (∀ (schema : Option String) (table pkeyName : String) (xs : List PyValue),
       build_delete schema table pkeyName (Sum.inr xs) false
         = "delete from " ++ get_table_name schema table ++ " where " ++ pkeyName
             ++ " in (" ++ String.intercalate ", " ((xs.map _single_quote).map pyStr)
             ++ ")")
    ∧ build_delete (some "pg_catalog") "pg_stat_database" "datid"
        (Sum.inl (PyValue.pint 12345)) false
        = "delete from pg_catalog.pg_stat_database where datid = 12345" := by
  refine ⟨?_, by rfl⟩
  intro schema table pkeyName xs
  rfl

/-- Counterexample to C8 as stated: with strict mode set but the coerced
value not requested, a failed bool coercion is NOT escalated to a raised
error — assert_value_dtype returns the boolean false and merely logs the
diagnostic, so strict escalation does not hold for every target type. -/
theorem c8_counterexample :
    (assert_value_dtype fsNone (PyValue.pstr "xyz") "bool" false true).1
      = Except.ok (AVDRet.rb false)
    ∧ (assert_value_dtype fsNone (PyValue.pstr "xyz") "bool" false true).2
      = [(LogLevel.debug, coerceFailMsg (PyValue.pstr "xyz") "bool")] := by
  exact ⟨rfl, rfl⟩

/-- C8 amended: when coercion fails without an exception escaping the dtype
branch, requesting the coerced value raises a value error whose message
names the value, its observed type and the target type, and otherwise the
function returns the boolean false and appends the same diagnostic at debug
level; the strict flag changes nothing for the bool target (it escalates
only the str / int / float conversion errors raised inside those
branches). -/
theorem c8_coercion_failure_amended :
    (∀ (fs : String → Bool) (v : PyValue) (dt : String) (rc st : Bool),
       valid_dtypes.contains dt = true →
       (avdBranch fs v dt st).1 = Except.ok none →
       ((rc = true →
          (assert_value_dtype fs v dt rc st).1
            = Except.error (coerceFailMsg v dt))
        ∧ (rc = false →
          (assert_value_dtype fs v dt rc st).1 = Except.ok (AVDRet.rb false)
          ∧ (assert_value_dtype fs v dt rc st).2
              = (avdBranch fs v dt st).2 ++ [(LogLevel.debug, coerceFailMsg v dt)])))
    ∧ (∀ (fs : String → Bool) (v : PyValue) (rc st st' : Bool),
        assert_value_dtype fs v "bool" rc st = assert_value_dtype fs v "bool" rc st') := by
  constructor
  · intro fs v dt rc st hvd hb
    have hmem : dt ∈ valid_dtypes := by
      simpa using hvd
    rcases hav : avdBranch fs v dt st with ⟨ret, logs⟩
    rw [hav] at hb
    have hb2 : ret = Except.ok none := hb
    subst hb2
    constructor
    · intro hrc
      subst hrc
      simp [assert_value_dtype, hvd, hav, hmem]
    · intro hrc
      subst hrc
      constructor
      · simp [assert_value_dtype, hvd, hav, hmem]
      · simp [assert_value_dtype, hvd, hav, hmem]
  · intro fs v rc st st'
    rfl

/-- Witness for the amended C8: the requested coerced value of an
uncoercible bool raises the diagnostic ValueError. -/
theorem c8_coercion_failure_amended_witness :
    (assert_value_dtype fsNone (PyValue.pstr "nope") "bool" true false).1
      = Except.error (coerceFailMsg (PyValue.pstr "nope") "bool") :=
  ((c8_coercion_failure_amended).1 fsNone (PyValue.pstr "nope") "bool" true false
    (by decide) rfl).1 rfl

/-- Counterexample to C9 as stated: parsing the timezone-qualified string
2020-01-02 03:04:05+01:30 attaches an offset of 3600 seconds (hours only),
not the 5400 seconds that the hours-plus-minutes total of the claim
demands. -/
theorem c9_counterexample :
    (assert_value_dtype fsNone (PyValue.pstr "2020-01-02 03:04:05+01:30")
        "datetime" true false).1
      = Except.ok (AVDRet.rc (Coerced.ofDt ⟨2020, 1, 2, 3, 4, 5, 0, some 3600⟩))
    ∧ (3600 : Int) ≠ 1 * 60 * 60 + 30 * 60 := by
  exact ⟨rfl, by decide⟩

/-- C9 amended: datetime coercion tries the plain, timezone-qualified and
microsecond-qualified patterns in that priority order; on a string matched
by the timezone-qualified pattern it produces a datetime whose attached
offset in seconds is the sign-adjusted tz hour field converted to seconds —
the parsed tz minute field is ignored. -/
theorem c9_datetime_tz_amended (fs : String → Bool) (s : String) (c : DTComps)
    (sign : Char) (tzh tzm : Nat)
    (h1 : matchDatetime (pyStrip s) = none)
    (h2 : matchDatetimeTz (pyStrip s) = some (c, sign, tzh, tzm))
    (h3 : validDT c 0 = true) :
    (assert_value_dtype fs (PyValue.pstr s) "datetime" true false).1
      = Except.ok (AVDRet.rc (Coerced.ofDt
          ⟨c.year, c.month, c.day, c.hour, c.minute, c.second, 0,
           some (if sign = '-' then -((tzh : Int) * 60 * 60)
                 else (tzh : Int) * 60 * 60)⟩)) := by
  have hbr : avdBranch fs (PyValue.pstr s) "datetime" false
      = (Except.ok (some (Coerced.ofDt
          ⟨c.year, c.month, c.day, c.hour, c.minute, c.second, 0,
           some (if sign = '-' then -((tzh : Int) * 60 * 60)
                 else (tzh : Int) * 60 * 60)⟩)), []) := by
    simp only [avdBranch, pyStr]
    rw [if_neg (by decide), if_neg (by decide), if_neg (by decide),
        if_neg (by decide), if_neg (by decide), if_pos trivial]
    rw [h1, h2]
    dsimp only
    rw [if_pos h3]
  simp [assert_value_dtype, hbr,
    show ("datetime" : String) ∈ valid_dtypes from by decide]

/-- Witness for the amended C9 at a negative-offset concrete string. -/
theorem c9_datetime_tz_amended_witness :
    (assert_value_dtype fsNone (PyValue.pstr "2020-01-02 03:04:05-05:07")
        "datetime" true false).1
      = Except.ok (AVDRet.rc (Coerced.ofDt ⟨2020, 1, 2, 3, 4, 5, 0, some (-18000)⟩)) := by
  have := c9_datetime_tz_amended fsNone "2020-01-02 03:04:05-05:07"
    ⟨2020, 1, 2, 3, 4, 5⟩ '-' 5 7 rfl rfl rfl
  exact this

/-- C10: there is a string value, not itself a null sentinel, whose rendered
INSERT literal differs from its literal-quoting: the whole-statement textual
replace of every quoted null sequence corrupts a quoted literal that ends in
the word null preceded by an embedded quote. -/
theorem c10_insert_null_replacement_corruption :
    nullEquivCheck (PyValue.pstr "a\x27null") = false
    ∧ build_insert [] none "t" ["c"] [PyValue.pstr "a\x27null"] false false
        = Except.ok "insert into t (\"c\") values (\x27a\x27null)"
    ∧ pyStr (_single_quote (PyValue.pstr "a\x27null")) = "\x27a\x27\x27null\x27"
    ∧ "insert into t (\"c\") values (\x27a\x27null)"
        ≠ "insert into t (\"c\") values ("
            ++ pyStr (_single_quote (PyValue.pstr "a\x27null")) ++ ")" := by
  refine ⟨by decide, by rfl, by rfl, by decide⟩
